import Mathlib

/-!
Verification of the qnl/probe-station control software against its
specification.  The Python sources are embedded shallowly:

* `P200L.send_command` (P200L.py) — the framed command/response protocol
  loop — becomes `sendLoop` / `send_command` over the list of CR-delimited
  frames of the device response; the reconnect-and-reraise wrapper becomes
  `send_command_full`, which also records the observable events
  (send attempt, reconnect attempt, reconnect-failure warning).
* The `P200L` navigation helpers (`goto_die`, `goto_first_die`,
  `goto_same_die`, `goto_next_die`) become functions returning the list of
  commands transmitted together with the Python return value.
* `P200L.auto_raise` / `auto_lower` become transitions on the device's
  auto-Z flag pair, failing exactly when the Python `assert` statements do.
* `Probe_Measurement.probe_die`'s subsite loop becomes `subsiteLoop`,
  parametrised by the successive return values of `goto_next_subsite`.
* `Probe_Measurement.probe_wafer` becomes `probe_wafer`, a fuel-indexed
  transition function recording probed dies and `:WFR:BIN` mark-bad
  commands.
* The calibration model exercised by test.py is not present in the sources;
  it is modelled from the specification (least-squares plane fit).
-/

/-- Errors that `P200L.send_command` can raise.  `badCommand` and `aborted`
carry the command string, mirroring the Python exceptions raised for the
`#066` and `#079` status frames.  `noResponse` models the loop blocking
forever in `recv` when the response stream is exhausted before the
terminal frame arrives. -/
inductive PError where
  | badCommand (msg : String)
  | aborted (msg : String)
  | noResponse
deriving DecidableEq

/-- Decidable equality for `Except`, so concrete protocol runs can be
checked by `decide`. -/
def exceptDecEq {ε α : Type} [DecidableEq ε] [DecidableEq α] : DecidableEq (Except ε α) := fun x y =>
  match x, y with
  | .ok a, .ok b =>
    if h : a = b then .isTrue (by rw [h]) else .isFalse (fun hc => by cases hc; exact h rfl)
  | .error a, .error b =>
    if h : a = b then .isTrue (by rw [h]) else .isFalse (fun hc => by cases hc; exact h rfl)
  | .ok _, .error _ => .isFalse (fun hc => by cases hc)
  | .error _, .ok _ => .isFalse (fun hc => by cases hc)

instance {ε α : Type} [DecidableEq ε] [DecidableEq α] : DecidableEq (Except ε α) :=
  exceptDecEq

/-- Terminal status frame: end of response. -/
def f064 : String := "#064"

/-- Status frame: bad command. -/
def f066 : String := "#066"

/-- Status frame: command aborted. -/
def f079 : String := "#079"

/-- Status frame: the next frame is the return payload. -/
def f192 : String := "#192"

/-- Splits a character list at every occurrence of `delim`, keeping empty
pieces, like repeated Python `data.split(b'\r', 1)`. -/
def splitCharAux (delim : Char) : List Char → List Char → List (List Char)
  | [], acc => [acc.reverse]
  | c :: cs, acc =>
    if c = delim then acc.reverse :: splitCharAux delim cs []
    else splitCharAux delim cs (c :: acc)

/-- Splits a string at every occurrence of `delim` (Python `str.split`). -/
def splitChar (delim : Char) (s : String) : List String :=
  (splitCharAux delim s.data []).map String.mk

/-- The response-processing loop of `P200L.send_command` (P200L.py lines
49-62), over the list of CR-delimited frames.  `last` is the previously
processed frame (`last_response`), `retval` the captured payload.  Each
frame is classified: `#066` raises Bad Command, `#079` raises Command
Aborted, and a frame whose predecessor was `#192` is captured as the
return value; the loop stops once the `#064` frame has been processed. -/
def sendLoop (msg : String) : List String → Option String → Option String → Except PError (Option String)
  | [], _, _ => .error .noResponse
  | f :: rest, last, retval =>
    if f = f066 then .error (.badCommand msg)
    else if f = f079 then .error (.aborted msg)
    else if f = f064 then .ok (if last = some f192 then some f else retval)
    else sendLoop msg rest (some f) (if last = some f192 then some f else retval)

/-- `P200L.send_command msg` applied to a device that answers with the raw
byte string `raw`: the bytes are accumulated and split at carriage
returns, and the frames are processed by `sendLoop` starting from
`response = retval = None`. -/
def send_command (msg raw : String) : Except PError (Option String) :=
  sendLoop msg (splitChar '\r' raw) none none

/-- A concrete command name, used in the spec's testable properties. -/
def cmdX : String := "X"

/-- The raw response bytes of the spec's payload example. -/
def respMarkerValue : String := "#192\rVALUE\r#064\r"

/-- The payload frame of the spec's payload example. -/
def payloadVALUE : String := "VALUE"

/-- Raw response consisting of a single bad-command status frame. -/
def resp066 : String := "#066\r"

/-- Raw response consisting of a single command-aborted status frame. -/
def resp079 : String := "#079\r"

/-- The TCP endpoint held by a `P200L` object (`self.ip`, `self.port`);
`reconnect` recreates the socket against exactly these fields. -/
structure Channel where
  ip : String
  port : Nat
deriving DecidableEq

/-- Observable events of one `send_command` call: the transmission attempt
itself, a reconnect attempt against an endpoint (socket close + connect in
`P200L.reconnect`), and the printed warning when the reconnect fails. -/
inductive Event where
  | sendAttempt (msg : String)
  | reconnectAttempt (ip : String) (port : Nat)
  | warnReconnectFailed
deriving DecidableEq

/-- Recognises reconnect-attempt events. -/
def isReconnectAttempt : Event → Bool
  | .reconnectAttempt _ _ => true
  | _ => false

/-- Recognises send-attempt events. -/
def isSendAttempt : Event → Bool
  | .sendAttempt _ => true
  | _ => false

/-- Full `P200L.send_command` including the exception wrapper (P200L.py
lines 44-69): on any failure the Python code attempts a single
`self.reconnect()` (against the unchanged `self.ip`, `self.port`); if that
itself fails a warning is printed; either way the original exception is
re-raised (`raise` with no argument) and the command is not re-sent.
`reconnectSucceeds` says whether the reconnect attempt works. -/
def send_command_full (ch : Channel) (msg raw : String) (reconnectSucceeds : Bool) :
    List Event × Except PError (Option String) :=
  match send_command msg raw with
  | .ok v => ([.sendAttempt msg], .ok v)
  | .error e =>
    ([.sendAttempt msg, .reconnectAttempt ch.ip ch.port] ++
      (if reconnectSucceeds then [] else [.warnReconnectFailed]), .error e)

/-- The endpoint defaults from `P200L.__init__`. -/
def chDefault : Channel := { ip := "192.168.0.6", port := 9002 }

/-- The subsite loop of `Probe_Measurement.probe_die` (lines 182-193):
starting from the current `index`, one measurement is taken per iteration
while `index != -1`, then `index` is replaced by the next element of
`nexts` (the successive return values of `goto_next_subsite`).  Returns
the number of measurement-callback invocations and the list of subsite
indices measured; `none` models `goto_next_subsite` blocking because the
injected return sequence is exhausted before the sentinel appears. -/
def subsiteLoop : List Int → Int → Option (Nat × List Int)
  | [], index => if index = -1 then some (0, []) else none
  | n :: rest, index =>
    if index = -1 then some (0, [])
    else
      match subsiteLoop rest n with
      | none => none
      | some p => some (p.1 + 1, index :: p.2)

/-- `Probe_Measurement.probe_die`: sets `index = 1`, issues
`goto_subsite(1)` (the first component records the argument of that
command), then runs the subsite loop from index 1. -/
def probe_die (nexts : List Int) : Int × Option (Nat × List Int) :=
  (1, subsiteLoop nexts 1)

/-- Terminal behaviour of one `probe_wafer` run.  `completed` is the normal
exit of the die loop, `interrupted` a re-raised `KeyboardInterrupt`,
`unboundLocal` the `UnboundLocalError` raised when the loop guard reads
`x_index` before assignment, `running` means the fuel ran out with the
loop still going (the active code never advances the die index, so without
an interrupt the loop cannot exit once entered). -/
inductive WaferOutcome where
  | completed
  | interrupted
  | unboundLocal
  | running
deriving DecidableEq

/-- The die loop of `Probe_Measurement.probe_wafer` (lines 251-258):
`while x_index < 1e6: self.probe_die(h5file)`.  No statement in the loop
body updates `x_index` or `y_index`, so the current die never changes.
`intr = some k` injects a `KeyboardInterrupt` during the k-th
`probe_die`; the handler issues one `:WFR:BIN x_index y_index T` mark-bad
command (recorded in the third component) and re-raises.  The second
component counts completed `probe_die` calls. -/
def probe_wafer_loop : Nat → Int → Int → Option Nat → WaferOutcome × Nat × List (Int × Int)
  | 0, _, _, _ => (.running, 0, [])
  | fuel + 1, x, y, intr =>
    if x < 1000000 then
      if intr = some 0 then (.interrupted, 0, [(x, y)])
      else
        match probe_wafer_loop fuel x y (Option.map (fun n => n - 1) intr) with
        | (o, n, bins) => (o, n + 1, bins)
    else (.completed, 0, [])

/-- `Probe_Measurement.probe_wafer` (lines 245-258): with
`reset_die=True` only `reset_data_array` runs, `x_index` is never
assigned, and the loop guard `while x_index < 1e6` raises
`UnboundLocalError`, which the bare `except` re-raises; with
`reset_die=False`, `(x0, y0)` is the result of `goto_same_die()` and the
die loop runs. -/
def probe_wafer (reset_die : Bool) (x0 y0 : Int) (intr : Option Nat) (fuel : Nat) :
    WaferOutcome × Nat × List (Int × Int) :=
  if reset_die then (.unboundLocal, 0, [])
  else probe_wafer_loop fuel x0 y0 intr

/-- The device's auto-Z flag pair, the first two fields of the
`:PRB:DNM?` reply that `auto_raise` and `auto_lower` read and write. -/
structure AutoZFlags where
  autoRaiseFlag : Bool
  autoLowerFlag : Bool
deriving DecidableEq

/-- A failed Python `assert` statement with its message. -/
inductive StageError where
  | assertionError (msg : String)
deriving DecidableEq

/-- Message of the `assert` guarding `auto_lower(True)`. -/
def msgRaiseFirst : String := "auto raise should be on before auto-lower is enabled"

/-- Message of the `assert` guarding `auto_raise(False)`. -/
def msgLowerFirst : String := "auto lower should be off before auto_raise is disabled"

/-- `P200L.auto_raise` (lines 147-161): with no argument it is a pure
query of the first flag; when disabling, the code first asserts
`not self.auto_lower()` (the second flag must already be off), then
writes the updated flag vector to the device and returns the new first
flag. -/
def auto_raise (s : AutoZFlags) : Option Bool → Except StageError (AutoZFlags × Bool)
  | none => .ok (s, s.autoRaiseFlag)
  | some dr =>
    if dr = false ∧ s.autoLowerFlag = true then .error (.assertionError msgLowerFirst)
    else .ok ({ s with autoRaiseFlag := dr }, dr)

/-- `P200L.auto_lower` (lines 163-178): with no argument it is a pure
query of the second flag; when enabling, the code first asserts
`self.auto_raise()` (the first flag must already be on), then writes the
updated flag vector and returns the new second flag. -/
def auto_lower (s : AutoZFlags) : Option Bool → Except StageError (AutoZFlags × Bool)
  | none => .ok (s, s.autoLowerFlag)
  | some dl =>
    if dl = true ∧ s.autoRaiseFlag = false then .error (.assertionError msgRaiseFirst)
    else .ok ({ s with autoLowerFlag := dl }, dl)

/-- Folds a digit list into a number, `none` on a non-digit (the failure
of Python `int()`). -/
def digitsToNatAux : List Char → Nat → Option Nat
  | [], acc => some acc
  | c :: cs, acc =>
    if c.isDigit then digitsToNatAux cs (acc * 10 + (c.toNat - 48)) else none

/-- Python `int()` on a decimal string with optional leading minus sign. -/
def parseInt (s : String) : Option Int :=
  match s.data with
  | [] => none
  | c :: rest =>
    if c = '-' then
      if rest = [] then none
      else Option.map (fun n => -(n : Int)) (digitsToNatAux rest 0)
    else Option.map (fun n => (n : Int)) (digitsToNatAux (c :: rest) 0)

/-- The reply parsing `x, y = retval.split(' ')` followed by
`int(x), int(y)`; `none` models the `ValueError` on a malformed reply. -/
def parseXY (s : String) : Option (Int × Int) :=
  match splitChar ' ' s with
  | [a, b] =>
    match parseInt a, parseInt b with
    | some x, some y => some (x, y)
    | _, _ => none
  | _ => none

/-- The local-reference reset command chained after each die move. -/
def cmdRefXY : String := ":PRB:REFXY 0 0"

/-- Query/move command of `goto_first_die`. -/
def cmdFirst : String := ":WFR:FIRST?"

/-- Query command of `goto_same_die` and `get_die`. -/
def cmdPos : String := ":WFR:POS:CR?"

/-- Query/move command of `goto_next_die`. -/
def cmdNext : String := ":WFR:NEXT?"

/-- The `:WFR:MOV:CR {x} {y}` command template of `goto_die`. -/
def movCRCmd (x y : Int) : String :=
  ":WFR:MOV:CR " ++ toString x ++ " " ++ toString y

/-- `P200L.goto_die` (lines 71-75): sends the move command and then the
local-reference reset; the Python method has no return statement, so the
returned die index is `none` (Python `None`). -/
def goto_die (x y : Int) : List String × Option (Int × Int) :=
  ([movCRCmd x y, cmdRefXY], none)

/-- `P200L.goto_first_die` (lines 92-101): sends `:WFR:FIRST?`, parses the
reply into `(x, y)`, sends the local-reference reset, and returns the
index.  `dev` maps each query command to the payload the device returns. -/
def goto_first_die (dev : String → String) : List String × Option (Int × Int) :=
  ([cmdFirst, cmdRefXY], parseXY (dev cmdFirst))

/-- `P200L.goto_same_die` (lines 103-111): like `goto_first_die` but
queries the current position with `:WFR:POS:CR?`. -/
def goto_same_die (dev : String → String) : List String × Option (Int × Int) :=
  ([cmdPos, cmdRefXY], parseXY (dev cmdPos))

/-- `P200L.goto_next_die` (lines 113-121): like `goto_first_die` but
moves with `:WFR:NEXT?`. -/
def goto_next_die (dev : String → String) : List String × Option (Int × Int) :=
  ([cmdNext, cmdRefXY], parseXY (dev cmdNext))

/-- A concrete device reply table used to instantiate the navigation
theorems. -/
def exDev : String → String := fun c =>
  if c = cmdFirst then "3 4" else if c = cmdPos then "5 6" else "7 8"

/-- The message of the `NameError` raised by `load_wafer_file`. -/
def nameErrorMsg : String := "NameError: name subsite_file is not defined"

/-- `P200L.load_wafer_file` (lines 193-201): its body is the single
statement `self.send_command(f':WFR:FILE {subsite_file}')`, but
`subsite_file` is not defined in any enclosing scope (the parameter is
`wafer_file` and there is no such global), so evaluating the f-string
raises `NameError` before `send_command` is entered: the session `ch` is
returned unchanged and the list of transmitted commands is empty. -/
def load_wafer_file (ch : Channel) (wafer_file : String) :
    Channel × List String × Except String Unit :=
  (ch, [], .error nameErrorMsg)

/-- Errors of the calibration model (spec section 7). -/
inductive CalibrationError where
  | insufficientPoints
  | degenerate
  | notFitted
deriving DecidableEq

/-- Sum of `f` over a list of calibration points `(x, y, z)`. -/
def sumBy (ps : List (ℚ × ℚ × ℚ)) (f : ℚ × ℚ × ℚ → ℚ) : ℚ :=
  (ps.map f).sum

/-- Normal-equation entry: sum of x·x. -/
def sxx (ps : List (ℚ × ℚ × ℚ)) : ℚ := sumBy ps fun p => p.1 * p.1

/-- Normal-equation entry: sum of x·y. -/
def sxy (ps : List (ℚ × ℚ × ℚ)) : ℚ := sumBy ps fun p => p.1 * p.2.1

/-- Normal-equation entry: sum of x. -/
def sx (ps : List (ℚ × ℚ × ℚ)) : ℚ := sumBy ps fun p => p.1

/-- Normal-equation entry: sum of y·x. -/
def syx (ps : List (ℚ × ℚ × ℚ)) : ℚ := sumBy ps fun p => p.2.1 * p.1

/-- Normal-equation entry: sum of y·y. -/
def syy (ps : List (ℚ × ℚ × ℚ)) : ℚ := sumBy ps fun p => p.2.1 * p.2.1

/-- Normal-equation entry: sum of y. -/
def sy (ps : List (ℚ × ℚ × ℚ)) : ℚ := sumBy ps fun p => p.2.1

/-- Normal-equation entry: the number of points (as a rational). -/
def sn (ps : List (ℚ × ℚ × ℚ)) : ℚ := sumBy ps fun _ => 1

/-- Right-hand side entry: sum of x·z. -/
def sxz (ps : List (ℚ × ℚ × ℚ)) : ℚ := sumBy ps fun p => p.1 * p.2.2

/-- Right-hand side entry: sum of y·z. -/
def syz (ps : List (ℚ × ℚ × ℚ)) : ℚ := sumBy ps fun p => p.2.1 * p.2.2

/-- Right-hand side entry: sum of z. -/
def sz (ps : List (ℚ × ℚ × ℚ)) : ℚ := sumBy ps fun p => p.2.2

/-- Determinant of the 3×3 normal-equation matrix of the least-squares
plane fit (rows expanded along the first row). -/
def fitDet (ps : List (ℚ × ℚ × ℚ)) : ℚ :=
  sxx ps * (syy ps * sn ps - sy ps * sy ps) -
    sxy ps * (syx ps * sn ps - sy ps * sx ps) +
    sx ps * (syx ps * sy ps - syy ps * sx ps)

/-- Cramer numerator for the coefficient `a` (first column replaced by the
right-hand side). -/
def fitA (ps : List (ℚ × ℚ × ℚ)) : ℚ :=
  sxz ps * (syy ps * sn ps - sy ps * sy ps) -
    sxy ps * (syz ps * sn ps - sy ps * sz ps) +
    sx ps * (syz ps * sy ps - syy ps * sz ps)

/-- Cramer numerator for the coefficient `b` (second column replaced by
the right-hand side). -/
def fitB (ps : List (ℚ × ℚ × ℚ)) : ℚ :=
  sxx ps * (syz ps * sn ps - sy ps * sz ps) -
    sxz ps * (syx ps * sn ps - sy ps * sx ps) +
    sx ps * (syx ps * sz ps - syz ps * sx ps)

/-- Cramer numerator for the coefficient `c` (third column replaced by the
right-hand side). -/
def fitC (ps : List (ℚ × ℚ × ℚ)) : ℚ :=
  sxx ps * (syy ps * sz ps - syz ps * sy ps) -
    sxy ps * (syx ps * sz ps - syz ps * sx ps) +
    sxz ps * (syx ps * sy ps - syy ps * sx ps)

/-- Modelled from the spec: `CalibrationModel.fit` is not present under
src (test.py exercises `calibrate`/`adjust`, whose implementation is
missing); spec section 4.3 specifies it as the least-squares plane
`z = a·x + b·y + c` over at least three points, failing with
`InsufficientPoints` below three points and with `Degenerate` when the
system is unsolvable.  The least-squares solution is computed exactly by
Cramer's rule on the normal equations; the system is degenerate exactly
when the normal determinant vanishes. -/
def fit (ps : List (ℚ × ℚ × ℚ)) : Except CalibrationError (ℚ × ℚ × ℚ) :=
  if ps.length < 3 then .error .insufficientPoints
  else if fitDet ps = 0 then .error .degenerate
  else .ok (fitA ps / fitDet ps, fitB ps / fitDet ps, fitC ps / fitDet ps)

/-- Modelled from the spec: `CalibrationModel.predict` evaluates the
fitted plane at `(x, y)`. -/
def predict (c : ℚ × ℚ × ℚ) (x y : ℚ) : ℚ :=
  c.1 * x + c.2.1 * y + c.2.2

/-- The `(x, y)` projections of the points all lie on one line
`α·x + β·y = γ` with `(α, β) ≠ (0, 0)`. -/
def CollinearPts (ps : List (ℚ × ℚ × ℚ)) : Prop :=
  ∃ α β γ : ℚ, (α ≠ 0 ∨ β ≠ 0) ∧ ∀ p ∈ ps, α * p.1 + β * p.2.1 = γ

/-- The calibration points of the spec's testable property. -/
def calPoints : List (ℚ × ℚ × ℚ) := [(0, 0, 0), (0, 1, 1), (1, 0, 0)]

/-- Three collinear points (all on the diagonal x = y) used to witness the
degenerate case. -/
def collinearExample : List (ℚ × ℚ × ℚ) := [(0, 0, 0), (1, 1, 0), (2, 2, 5)]

/-- Frames carrying none of the four reserved status codes are skipped by
the protocol loop without changing the captured payload, and the first
`#064` frame ends the response with exactly that payload. -/
theorem sendLoop_plain_until_064 (msg : String) :
    ∀ (post rest : List String) (last retval : Option String),
      f064 ∉ post → f066 ∉ post → f079 ∉ post → f192 ∉ post →
      last ≠ some f192 →
      sendLoop msg (post ++ f064 :: rest) last retval = .ok retval := by
  intro post
  induction post with
  | nil =>
    intro rest last retval _ _ _ _ h5
    rw [List.nil_append, sendLoop]
    rw [if_neg (by decide), if_neg (by decide), if_pos rfl, if_neg h5]
  | cons p ps ih =>
    intro rest last retval h1 h2 h3 h4 h5
    have hp1 : p ≠ f064 := fun h => h1 (h ▸ List.mem_cons_self p ps)
    have hp2 : p ≠ f066 := fun h => h2 (h ▸ List.mem_cons_self p ps)
    have hp3 : p ≠ f079 := fun h => h3 (h ▸ List.mem_cons_self p ps)
    have hp4 : p ≠ f192 := fun h => h4 (h ▸ List.mem_cons_self p ps)
    rw [List.cons_append, sendLoop]
    rw [if_neg hp2, if_neg hp3, if_neg hp1, if_neg h5]
    exact ih rest (some p) retval (fun h => h1 (List.mem_cons_of_mem p h))
      (fun h => h2 (List.mem_cons_of_mem p h)) (fun h => h3 (List.mem_cons_of_mem p h))
      (fun h => h4 (List.mem_cons_of_mem p h)) (fun h => hp4 (Option.some.inj h))

/-- A payload frame `v` directly after the last `#192` marker before the
terminal frame is what the protocol loop returns, whatever was processed
or captured earlier. -/
theorem sendLoop_marker_payload (msg v : String)
    (hv2 : v ≠ f066) (hv3 : v ≠ f079) (hv4 : v ≠ f192) :
    ∀ (pre post rest : List String) (last retval : Option String),
      f064 ∉ pre → f066 ∉ pre → f079 ∉ pre →
      f064 ∉ post → f066 ∉ post → f079 ∉ post → f192 ∉ post →
      sendLoop msg (pre ++ f192 :: v :: (post ++ f064 :: rest)) last retval = .ok (some v) := by
  intro pre
  induction pre with
  | nil =>
    intro post rest last retval _ _ _ g1 g2 g3 g4
    rw [List.nil_append, sendLoop]
    rw [if_neg (by decide), if_neg (by decide), if_neg (by decide)]
    rw [sendLoop, if_neg hv2, if_neg hv3]
    by_cases hv1 : v = f064
    · rw [if_pos hv1, if_pos rfl]
    · rw [if_neg hv1, if_pos rfl]
      exact sendLoop_plain_until_064 msg post rest (some v) (some v) g1 g2 g3 g4
        (fun h => hv4 (Option.some.inj h))
  | cons p ps ih =>
    intro post rest last retval h1 h2 h3 g1 g2 g3 g4
    have hp1 : p ≠ f064 := fun h => h1 (h ▸ List.mem_cons_self p ps)
    have hp2 : p ≠ f066 := fun h => h2 (h ▸ List.mem_cons_self p ps)
    have hp3 : p ≠ f079 := fun h => h3 (h ▸ List.mem_cons_self p ps)
    rw [List.cons_append, sendLoop, if_neg hp2, if_neg hp3, if_neg hp1]
    exact ih post rest (some p) _ (fun h => h1 (List.mem_cons_of_mem p h))
      (fun h => h2 (List.mem_cons_of_mem p h)) (fun h => h3 (List.mem_cons_of_mem p h))
      g1 g2 g3 g4

/-- A `#066` frame reached before the terminal frame makes the protocol
loop fail with Bad Command naming the command. -/
theorem sendLoop_badCommand (msg : String) :
    ∀ (pre rest : List String) (last retval : Option String),
      f064 ∉ pre → f079 ∉ pre →
      sendLoop msg (pre ++ f066 :: rest) last retval = .error (.badCommand msg) := by
  intro pre
  induction pre with
  | nil =>
    intro rest last retval _ _
    rw [List.nil_append, sendLoop, if_pos rfl]
  | cons p ps ih =>
    intro rest last retval h1 h3
    have hp1 : p ≠ f064 := fun h => h1 (h ▸ List.mem_cons_self p ps)
    have hp3 : p ≠ f079 := fun h => h3 (h ▸ List.mem_cons_self p ps)
    rw [List.cons_append, sendLoop]
    by_cases hp2 : p = f066
    · rw [if_pos hp2]
    · rw [if_neg hp2, if_neg hp3, if_neg hp1]
      exact ih rest (some p) _ (fun h => h1 (List.mem_cons_of_mem p h))
        (fun h => h3 (List.mem_cons_of_mem p h))

/-- A `#079` frame reached before the terminal frame makes the protocol
loop fail with Command Aborted naming the command. -/
theorem sendLoop_aborted (msg : String) :
    ∀ (pre rest : List String) (last retval : Option String),
      f064 ∉ pre → f066 ∉ pre →
      sendLoop msg (pre ++ f079 :: rest) last retval = .error (.aborted msg) := by
  intro pre
  induction pre with
  | nil =>
    intro rest last retval _ _
    rw [List.nil_append, sendLoop, if_neg (by decide), if_pos rfl]
  | cons p ps ih =>
    intro rest last retval h1 h2
    have hp1 : p ≠ f064 := fun h => h1 (h ▸ List.mem_cons_self p ps)
    have hp2 : p ≠ f066 := fun h => h2 (h ▸ List.mem_cons_self p ps)
    rw [List.cons_append, sendLoop]
    by_cases hp3 : p = f079
    · rw [if_neg hp2, if_pos hp3]
    · rw [if_neg hp2, if_neg hp3, if_neg hp1]
      exact ih rest (some p) _ (fun h => h1 (List.mem_cons_of_mem p h))
        (fun h => h2 (List.mem_cons_of_mem p h))

/-- Claim C2: `send_command` accumulates CR-delimited frames until the
terminal `#064` frame and, on success, returns the last payload frame
that immediately followed a `#192` marker (the frames after the terminal
one are never read), or the empty result (Python `None`) if no `#192`
marker was seen; in particular the response bytes
`#192\rVALUE\r#064\r` yield the payload `VALUE`. -/
theorem claim_C2_send_returns_last_marker_payload :
    (∀ (msg v : String) (pre post rest : List String),
      f064 ∉ pre → f066 ∉ pre → f079 ∉ pre →
      v ≠ f066 → v ≠ f079 → v ≠ f192 →
      f064 ∉ post → f066 ∉ post → f079 ∉ post → f192 ∉ post →
      sendLoop msg (pre ++ f192 :: v :: (post ++ f064 :: rest)) none none = .ok (some v)) ∧
    (∀ (msg : String) (pre rest : List String),
      f064 ∉ pre → f066 ∉ pre → f079 ∉ pre → f192 ∉ pre →
      sendLoop msg (pre ++ f064 :: rest) none none = .ok none) ∧
    send_command cmdX respMarkerValue = .ok (some payloadVALUE) := by
  refine ⟨?_, ?_, by decide⟩
  · intro msg v pre post rest h1 h2 h3 hv2 hv3 hv4 g1 g2 g3 g4
    exact sendLoop_marker_payload msg v hv2 hv3 hv4 pre post rest none none h1 h2 h3 g1 g2 g3 g4
  · intro msg pre rest h1 h2 h3 h4
    exact sendLoop_plain_until_064 msg pre rest none none h1 h2 h3 h4 (by decide)

/-- Witness for claim C2 at the concrete frame lists of the spec's
example and at a marker-free response. -/
theorem claim_C2_witness :
    sendLoop cmdX ([] ++ f192 :: payloadVALUE :: ([] ++ f064 :: [])) none none = .ok (some payloadVALUE) ∧
    sendLoop cmdX ([] ++ f064 :: []) none none = .ok none :=
  ⟨claim_C2_send_returns_last_marker_payload.1 cmdX payloadVALUE [] [] []
      (by decide) (by decide) (by decide) (by decide) (by decide) (by decide)
      (by decide) (by decide) (by decide) (by decide),
    claim_C2_send_returns_last_marker_payload.2.1 cmdX [] []
      (by decide) (by decide) (by decide) (by decide)⟩

/-- Claim C3: a non-terminal `#066` frame makes `send_command` fail with
the Bad Command error naming the command, a `#079` frame with the Command
Aborted error naming the command; both are fatal (an error, never a
success value), as in the spec's example where the raw response
`#066\r` to command `X` raises Bad Command naming `X`. -/
theorem claim_C3_status_066_079_fatal :
    (∀ (msg : String) (pre rest : List String) (last retval : Option String),
      f064 ∉ pre → f079 ∉ pre →
      sendLoop msg (pre ++ f066 :: rest) last retval = .error (.badCommand msg)) ∧
    (∀ (msg : String) (pre rest : List String) (last retval : Option String),
      f064 ∉ pre → f066 ∉ pre →
      sendLoop msg (pre ++ f079 :: rest) last retval = .error (.aborted msg)) ∧
    send_command cmdX resp066 = .error (.badCommand cmdX) ∧
    send_command cmdX resp079 = .error (.aborted cmdX) := by
  exact ⟨sendLoop_badCommand, sendLoop_aborted, by decide, by decide⟩

/-- Witness for claim C3: the fatal status frames after one ordinary
marker frame. -/
theorem claim_C3_witness :
    sendLoop cmdX ([f192] ++ f066 :: []) none none = .error (.badCommand cmdX) ∧
    sendLoop cmdX ([f192] ++ f079 :: []) none none = .error (.aborted cmdX) :=
  ⟨claim_C3_status_066_079_fatal.1 cmdX [f192] [] none none (by decide) (by decide),
    claim_C3_status_066_079_fatal.2.1 cmdX [f192] [] none none (by decide) (by decide)⟩

/-- Claim C4: whenever `send_command` fails, exactly one reconnect attempt
is made, against the unchanged endpoint of the channel; the result is the
original error whether or not the reconnect succeeds (a failed reconnect
only adds a warning event), and the command is transmitted exactly once
(never retried). -/
theorem claim_C4_reconnect_once_reraise :
    ∀ (ch : Channel) (msg raw : String) (rc : Bool) (e : PError),
      send_command msg raw = .error e →
      (send_command_full ch msg raw rc).2 = .error e ∧
      (send_command_full ch msg raw rc).1.countP isReconnectAttempt = 1 ∧
      (send_command_full ch msg raw rc).1.countP isSendAttempt = 1 ∧
      Event.reconnectAttempt ch.ip ch.port ∈ (send_command_full ch msg raw rc).1 := by
  intro ch msg raw rc e h
  unfold send_command_full
  rw [h]
  cases rc <;> simp [isReconnectAttempt, isSendAttempt]

/-- Witness for claim C4 at the default endpoint, the bad-command
response, and a failing reconnect. -/
theorem claim_C4_witness :
    (send_command_full chDefault cmdX resp066 false).2 = .error (.badCommand cmdX) ∧
    (send_command_full chDefault cmdX resp066 false).1.countP isReconnectAttempt = 1 ∧
    (send_command_full chDefault cmdX resp066 false).1.countP isSendAttempt = 1 ∧
    Event.reconnectAttempt chDefault.ip chDefault.port ∈ (send_command_full chDefault cmdX resp066 false).1 :=
  claim_C4_reconnect_once_reraise chDefault cmdX resp066 false (.badCommand cmdX) (by decide)

/-- The subsite loop stops immediately at the sentinel index. -/
theorem subsiteLoop_sentinel (l : List Int) : subsiteLoop l (-1) = some (0, []) := by
  cases l <;> rw [subsiteLoop] <;> simp

/-- When `goto_next_subsite` returns the indices `vs` and then the
sentinel, the subsite loop measures the start index and each element of
`vs`, and stops at the sentinel without reading further returns. -/
theorem subsiteLoop_counts :
    ∀ (vs rest : List Int) (start : Int), (-1 : Int) ∉ vs → start ≠ -1 →
      subsiteLoop (vs ++ (-1) :: rest) start = some (vs.length + 1, start :: vs) := by
  intro vs
  induction vs with
  | nil =>
    intro rest start _ hs
    rw [List.nil_append, subsiteLoop, if_neg hs, subsiteLoop_sentinel]
    simp
  | cons n ns ih =>
    intro rest start h hs
    have hn : n ≠ -1 := fun hq => h (hq ▸ List.mem_cons_self n ns)
    rw [List.cons_append, subsiteLoop, if_neg hs]
    rw [ih rest n (fun hq => h (List.mem_cons_of_mem n hq)) hn]
    simp

/-- Without a sentinel in the injected returns the subsite loop never
exits (it blocks once the sequence is exhausted). -/
theorem subsiteLoop_no_sentinel_blocks :
    ∀ (vs : List Int) (start : Int), (-1 : Int) ∉ vs → start ≠ -1 →
      subsiteLoop vs start = none := by
  intro vs
  induction vs with
  | nil =>
    intro start _ hs
    rw [subsiteLoop, if_neg hs]
  | cons n ns ih =>
    intro start h hs
    have hn : n ≠ -1 := fun hq => h (hq ▸ List.mem_cons_self n ns)
    rw [subsiteLoop, if_neg hs, ih n (fun hq => h (List.mem_cons_of_mem n hq)) hn]

/-- Claim C5: `probe_die` positions to subsite 1, invokes the measurement
callback once per subsite, and exits exactly when `goto_next_subsite`
returns the −1 sentinel (never before, never without it); for the
injected subsite sequence `[1, 2, 3, -1]` — subsite 1 entered directly by
`goto_subsite(1)`, the tail being the successive `goto_next_subsite`
returns — the callback runs exactly 3 times, at subsites 1, 2, 3. -/
theorem claim_C5_subsite_loop :
    (∀ nexts : List Int, (probe_die nexts).1 = 1) ∧
    (∀ (vs rest : List Int), (-1 : Int) ∉ vs →
      (probe_die (vs ++ (-1) :: rest)).2 = some (vs.length + 1, 1 :: vs)) ∧
    (∀ vs : List Int, (-1 : Int) ∉ vs → (probe_die vs).2 = none) ∧
    (probe_die (List.tail [1, 2, 3, -1])).2 = some (3, [1, 2, 3]) := by
  refine ⟨fun _ => rfl, ?_, ?_, by decide⟩
  · intro vs rest h
    exact subsiteLoop_counts vs rest 1 h (by decide)
  · intro vs h
    exact subsiteLoop_no_sentinel_blocks vs 1 h (by decide)

/-- Witness for claim C5 at the concrete injected sequence of the spec. -/
theorem claim_C5_witness :
    (probe_die ([2, 3] ++ (-1) :: [])).2 = some (3, [1, 2, 3]) ∧
    (probe_die [2, 3]).2 = none :=
  ⟨by
    have h := claim_C5_subsite_loop.2.1 [2, 3] [] (by decide)
    simpa using h,
   claim_C5_subsite_loop.2.2.1 [2, 3] (by decide)⟩

/-- Claim C1 (the code contradicts it): a full scan from a fresh state
(`reset_die=True`) does not visit any die and does not reach `Completed`;
it fails immediately with the unbound-local error, because `x_index` is
only assigned in the resume branch, for every wafer, interrupt schedule,
and amount of fuel. -/
theorem claim_C1_fresh_scan_crashes :
    ∀ (x0 y0 : Int) (intr : Option Nat) (fuel : Nat),
      probe_wafer true x0 y0 intr fuel = (.unboundLocal, 0, []) := by
  intro x0 y0 intr fuel
  rfl

/-- An interrupt injected during the k-th `probe_die` stops the die loop
with exactly one mark-bad command, carrying the current die. -/
theorem probe_wafer_loop_interrupt :
    ∀ (k fuel : Nat) (x y : Int), x < 1000000 → k < fuel →
      probe_wafer_loop fuel x y (some k) = (.interrupted, k, [(x, y)]) := by
  intro k
  induction k with
  | zero =>
    intro fuel x y hx hk
    match fuel, hk with
    | f + 1, _ =>
      rw [probe_wafer_loop, if_pos hx, if_pos rfl]
  | succ k ih =>
    intro fuel x y hx hk
    match fuel, hk with
    | f + 1, hk =>
      rw [probe_wafer_loop, if_pos hx, if_neg (by simp)]
      have hr := ih f x y hx (Nat.lt_of_succ_lt_succ hk)
      have hm : Option.map (fun n : Nat => n - 1) (some (k + 1)) = some k := by simp
      rw [hm, hr]

/-- Claim C7: a cancellation signal arriving mid-die (during the k-th
`probe_die` of a running scan — necessarily a resume-mode scan, since a
fresh one fails before its first die) causes exactly one `:WFR:BIN`
mark-die-bad command, carrying the coordinates of the die in progress,
after which the interrupt is re-raised and the scan ends interrupted
(`Aborted`). -/
theorem claim_C7_interrupt_marks_die_bad :
    ∀ (x y : Int) (k fuel : Nat), x < 1000000 → k < fuel →
      probe_wafer false x y (some k) fuel = (.interrupted, k, [(x, y)]) := by
  intro x y k fuel hx hk
  unfold probe_wafer
  rw [if_neg (by simp)]
  exact probe_wafer_loop_interrupt k fuel x y hx hk

/-- Witness for claim C7: die (2, 3), interrupt during the second die
visit, fuel 5. -/
theorem claim_C7_witness :
    probe_wafer false 2 3 (some 1) 5 = (.interrupted, 1, [(2, 3)]) :=
  claim_C7_interrupt_marks_die_bad 2 3 1 5 (by decide) (by decide)

/-- Claim C6: auto-lower can be enabled only while auto-raise is on, and
auto-raise can be disabled only once auto-lower is off; a violating call
fails with the corresponding assertion error — in particular
`auto_lower(True)` with the auto-raise flag off fails with the ordering
invariant error — while the calls respecting the ordering succeed and
update the flag vector. -/
theorem claim_C6_auto_z_ordering :
    (∀ s : AutoZFlags, s.autoRaiseFlag = false →
      auto_lower s (some true) = .error (.assertionError msgRaiseFirst)) ∧
    (∀ s : AutoZFlags, s.autoLowerFlag = true →
      auto_raise s (some false) = .error (.assertionError msgLowerFirst)) ∧
    (∀ s : AutoZFlags, s.autoRaiseFlag = true →
      auto_lower s (some true) = .ok ({ s with autoLowerFlag := true }, true)) ∧
    (∀ s : AutoZFlags, s.autoLowerFlag = false →
      auto_raise s (some false) = .ok ({ s with autoRaiseFlag := false }, false)) := by
  refine ⟨?_, ?_, ?_, ?_⟩
  · intro s h
    rw [auto_lower, if_pos ⟨rfl, h⟩]
  · intro s h
    rw [auto_raise, if_pos ⟨rfl, h⟩]
  · intro s h
    rw [auto_lower, if_neg]
    intro hc
    rw [h] at hc
    exact Bool.noConfusion hc.2
  · intro s h
    rw [auto_raise, if_neg]
    intro hc
    rw [h] at hc
    exact Bool.noConfusion hc.2

/-- Witness for claim C6 at concrete flag states, including the spec's
`auto_lower(True)` before any `auto_raise(True)`. -/
theorem claim_C6_witness :
    auto_lower { autoRaiseFlag := false, autoLowerFlag := false } (some true) =
      .error (.assertionError msgRaiseFirst) ∧
    auto_raise { autoRaiseFlag := true, autoLowerFlag := true } (some false) =
      .error (.assertionError msgLowerFirst) ∧
    auto_lower { autoRaiseFlag := true, autoLowerFlag := false } (some true) =
      .ok ({ autoRaiseFlag := true, autoLowerFlag := true }, true) ∧
    auto_raise { autoRaiseFlag := true, autoLowerFlag := false } (some false) =
      .ok ({ autoRaiseFlag := false, autoLowerFlag := false }, false) :=
  ⟨claim_C6_auto_z_ordering.1 _ rfl, claim_C6_auto_z_ordering.2.1 _ rfl,
    claim_C6_auto_z_ordering.2.2.1 _ rfl, claim_C6_auto_z_ordering.2.2.2 _ rfl⟩

/-- Claim C8 as stated is false: `goto_die` has no return statement, so it
does not return the resulting die index — at the concrete input (2, 3)
it returns Python `None`, not `(2, 3)`. -/
theorem claim_C8_counterexample : ¬ ((goto_die 2 3).2 = some (2, 3)) := by decide

/-- Claim C8 (amended): `goto_first_die`, `goto_same_die` and
`goto_next_die` each return the resulting die index `(x, y)` parsed from
the device reply and issue a second chained command resetting the local
reference frame after the move; `goto_die(x, y)` likewise issues the move
command followed by the same reference reset, but returns no die index
(Python `None`). -/
theorem claim_C8_amended_goto_family :
    ∀ (dev : String → String) (x y xf yf xs ys xn yn : Int),
      parseXY (dev cmdFirst) = some (xf, yf) →
      parseXY (dev cmdPos) = some (xs, ys) →
      parseXY (dev cmdNext) = some (xn, yn) →
      goto_first_die dev = ([cmdFirst, cmdRefXY], some (xf, yf)) ∧
      goto_same_die dev = ([cmdPos, cmdRefXY], some (xs, ys)) ∧
      goto_next_die dev = ([cmdNext, cmdRefXY], some (xn, yn)) ∧
      goto_die x y = ([movCRCmd x y, cmdRefXY], none) := by
  intro dev x y xf yf xs ys xn yn h1 h2 h3
  refine ⟨?_, ?_, ?_, rfl⟩
  · rw [goto_first_die, h1]
  · rw [goto_same_die, h2]
  · rw [goto_next_die, h3]

/-- Witness for the amended claim C8 at a concrete device reply table. -/
theorem claim_C8_amended_witness :
    goto_first_die exDev = ([cmdFirst, cmdRefXY], some (3, 4)) ∧
    goto_same_die exDev = ([cmdPos, cmdRefXY], some (5, 6)) ∧
    goto_next_die exDev = ([cmdNext, cmdRefXY], some (7, 8)) ∧
    goto_die 2 3 = ([movCRCmd 2 3, cmdRefXY], none) :=
  claim_C8_amended_goto_family exDev 2 3 3 4 5 6 7 8 (by decide) (by decide) (by decide)

/-- Claim C10: for every session and every argument, `load_wafer_file`
fails with the `NameError` for the undefined name `subsite_file` before
any command is transmitted (its command list is empty) and leaves the
session unchanged. -/
theorem claim_C10_load_wafer_file_name_error :
    ∀ (ch : Channel) (wafer_file : String),
      load_wafer_file ch wafer_file = (ch, [], .error nameErrorMsg) := by
  intro ch _
  rfl

/-- Weighted linearity of the point sums: if every `(x, y)` of the list
lies on the line `α·x + β·y = γ`, then for any weight function the
corresponding combination of weighted sums vanishes. -/
theorem sum_plane (w : ℚ × ℚ × ℚ → ℚ) (α β γ : ℚ) :
    ∀ ps : List (ℚ × ℚ × ℚ), (∀ p ∈ ps, α * p.1 + β * p.2.1 = γ) →
      α * sumBy ps (fun p => w p * p.1) + β * sumBy ps (fun p => w p * p.2.1) -
        γ * sumBy ps w = 0 := by
  intro ps
  induction ps with
  | nil => intro _; simp [sumBy]
  | cons q l ih =>
    intro h
    have hq : α * q.1 + β * q.2.1 = γ := h q (List.mem_cons_self q l)
    have hl := ih fun p hp => h p (List.mem_cons_of_mem q hp)
    simp only [sumBy, List.map_cons, List.sum_cons] at hl ⊢
    linear_combination w q * hq + hl

/-- A 3×3 determinant vanishes when a nontrivial combination of its
columns is zero (the combination given row-wise by the hypotheses). -/
theorem det3_zero_of_combo (m11 m12 m13 m21 m22 m23 m31 m32 m33 α β γ : ℚ)
    (hab : α ≠ 0 ∨ β ≠ 0)
    (h1 : α * m11 + β * m12 - γ * m13 = 0)
    (h2 : α * m21 + β * m22 - γ * m23 = 0)
    (h3 : α * m31 + β * m32 - γ * m33 = 0) :
    m11 * (m22 * m33 - m23 * m32) - m12 * (m21 * m33 - m23 * m31) +
      m13 * (m21 * m32 - m22 * m31) = 0 := by
  rcases hab with ha | hb
  · have key : α * (m11 * (m22 * m33 - m23 * m32) - m12 * (m21 * m33 - m23 * m31) +
        m13 * (m21 * m32 - m22 * m31)) = 0 := by
      linear_combination (m22 * m33 - m23 * m32) * h1 - (m12 * m33 - m13 * m32) * h2 +
        (m12 * m23 - m13 * m22) * h3
    rcases mul_eq_zero.mp key with h | h
    · exact absurd h ha
    · exact h
  · have key : β * (m11 * (m22 * m33 - m23 * m32) - m12 * (m21 * m33 - m23 * m31) +
        m13 * (m21 * m32 - m22 * m31)) = 0 := by
      linear_combination (-(m21 * m33 - m23 * m31)) * h1 + (m11 * m33 - m13 * m31) * h2 -
        (m11 * m23 - m13 * m21) * h3
    rcases mul_eq_zero.mp key with h | h
    · exact absurd h hb
    · exact h

/-- Collinear calibration points make the normal-equation determinant
vanish. -/
theorem fitDet_zero_of_collinear (ps : List (ℚ × ℚ × ℚ)) (h : CollinearPts ps) :
    fitDet ps = 0 := by
  obtain ⟨α, β, γ, hab, hmem⟩ := h
  have h1 := sum_plane (fun p => p.1) α β γ ps hmem
  have h2 := sum_plane (fun p => p.2.1) α β γ ps hmem
  have h3 := sum_plane (fun _ => 1) α β γ ps hmem
  simp only [one_mul] at h3
  have e1 : α * sxx ps + β * sxy ps - γ * sx ps = 0 := h1
  have e2 : α * syx ps + β * syy ps - γ * sy ps = 0 := h2
  have e3 : α * sx ps + β * sy ps - γ * sn ps = 0 := h3
  exact det3_zero_of_combo (sxx ps) (sxy ps) (sx ps) (syx ps) (syy ps) (sy ps)
    (sx ps) (sy ps) (sn ps) α β γ hab e1 e2 e3

/-- On the spec's three calibration points the fit returns exactly the
plane z = y. -/
theorem fit_calPoints : fit calPoints = .ok (0, 1, 0) := by
  have hdet : fitDet calPoints = 1 := by
    norm_num [fitDet, sxx, sxy, sx, syx, syy, sy, sn, sumBy, calPoints]
  have ha : fitA calPoints = 0 := by
    norm_num [fitA, sxz, sxy, sx, syz, syy, sy, sn, sz, sumBy, calPoints]
  have hb : fitB calPoints = 1 := by
    norm_num [fitB, sxx, sxz, sx, syx, syz, sy, sn, sz, sumBy, calPoints]
  have hc : fitC calPoints = 0 := by
    norm_num [fitC, sxx, sxy, sxz, syx, syy, syz, sx, sy, sz, sumBy, calPoints]
  rw [fit, if_neg (by norm_num [calPoints]), if_neg (by rw [hdet]; norm_num)]
  rw [hdet, ha, hb, hc]
  norm_num

/-- Claim C9: fitting the points `[[0,0,0],[0,1,1],[1,0,0]]` succeeds and
the fitted plane predicts `predict(0,1)=1`, `predict(2,0)=0` and
`predict(0,2)=2` exactly; the fit fails with `InsufficientPoints` on
fewer than three points and with `Degenerate` on collinear points. -/
theorem claim_C9_calibration_fit :
    (∃ c : ℚ × ℚ × ℚ, fit calPoints = .ok c ∧
      predict c 0 1 = 1 ∧ predict c 2 0 = 0 ∧ predict c 0 2 = 2) ∧
    (∀ ps : List (ℚ × ℚ × ℚ), ps.length < 3 → fit ps = .error .insufficientPoints) ∧
    (∀ ps : List (ℚ × ℚ × ℚ), 3 ≤ ps.length → CollinearPts ps →
      fit ps = .error .degenerate) := by
  refine ⟨⟨(0, 1, 0), fit_calPoints, by norm_num [predict], by norm_num [predict],
    by norm_num [predict]⟩, ?_, ?_⟩
  · intro ps h
    rw [fit, if_pos h]
  · intro ps h hc
    rw [fit, if_neg (by omega), if_pos (fitDet_zero_of_collinear ps hc)]

/-- Witness for claim C9: the empty point list and a concrete collinear
triple. -/
theorem claim_C9_witness :
    fit [] = .error .insufficientPoints ∧
    fit collinearExample = .error .degenerate :=
  ⟨claim_C9_calibration_fit.2.1 [] (by decide),
    claim_C9_calibration_fit.2.2 collinearExample (by decide)
      ⟨1, -1, 0, Or.inl one_ne_zero, by
        intro p hp
        simp only [collinearExample, List.mem_cons, List.not_mem_nil, or_false] at hp
        rcases hp with h | h | h <;> subst h <;> norm_num⟩⟩
